import Mathlib

/-!
Shallow embedding of the blockchain indexer in
`src/backend/src/services/indexer.js` (class `BlockchainIndexer`), over the
relational schema of `src/backend/src/database/schema.sql`.

Modelling conventions:
* Each SQL table touched by the indexer is a list of rows; only the columns the
  indexer reads or writes are modelled.  `SERIAL` primary keys that the code
  reads back (`users.id`, `bounties.id`) are modelled with explicit counters in
  the database state; serial keys the indexer never reads are omitted.
* `NOW()` is an explicit `now : Nat` argument, timestamps are `Nat`.
* On-chain amounts (`NUMERIC(78,0)`, BigInt strings in JS) are `Nat`; on-chain
  ids (`bountyId.toString()` keys) are `Nat`.
* The contract state read back by the handlers (`bountyManager.bounties(id)`,
  `bountyManager.submissions(id)`) is a `Chain` record of functions.
* Each `await query(...)` is one state-transforming step; the source uses the
  plain `query` helper throughout (the imported `transaction` helper is never
  called), so there is no transaction boundary around any group of steps.
* Redis cache invalidation (`cache.deletePattern`) and `console` logging are
  side effects outside the projection state and are not modelled.
-/

namespace KR9

/-- Snapshot of `bountyManager.bounties(bountyId)` as read by `handleBountyCreated`. -/
structure BountyData where
  targetContract : String
  totalReward : Nat
  remainingReward : Nat
  lockAmount : Nat
  status : Nat
  deadline : Nat
  isActive : Bool
  paymentToken : String
deriving DecidableEq

/-- Snapshot of `bountyManager.submissions(submissionId)` as read by `handleSubmissionCreated`. -/
structure SubmissionData where
  severity : Nat
  status : Nat
  rewardAmount : Nat
  submittedAt : Nat
  isPaid : Bool
deriving DecidableEq

/-- Read-only contract state the handlers fetch from at projection time. -/
structure Chain where
  bounties : Nat → BountyData
  submissions : Nat → SubmissionData

/-- Decoded event argument payloads of the five watched event types. -/
inductive EventArgs where
  | bountyCreated (bountyId : Nat) (company : String) (totalReward : Nat)
  | submissionCreated (submissionId bountyId : Nat) (hunter : String)
  | submissionValidated (submissionId severity : Nat) (isValid : Bool)
  | rewardPaid (submissionId : Nat) (hunter : String) (amount : Nat)
  | bountyCompleted (bountyId : Nat)
deriving DecidableEq

/-- An on-chain log event with its provenance fields used by the handlers. -/
structure Event where
  blockNumber : Nat
  logIndex : Nat
  txHash : String
  blockTimestamp : Nat
  args : EventArgs
deriving DecidableEq

/-- Row of `users` (columns the indexer touches). -/
structure UserRow where
  id : Nat
  wallet_address : String
  role : String
deriving DecidableEq

/-- Row of `hunter_stats` (columns the indexer touches). -/
structure HunterStatsRow where
  wallet_address : String
  total_earned : Nat
  successful_submissions : Nat
  total_submissions : Nat
deriving DecidableEq

/-- Row of `bounties` (columns the indexer touches). -/
structure BountyRow where
  id : Nat
  bounty_id : Nat
  company_id : Nat
  target_contract_address : String
  total_reward : Nat
  remaining_reward : Nat
  lock_amount : Nat
  status : Nat
  deadline : Nat
  is_active : Bool
  payment_token : String
  block_number : Nat
  tx_hash : String
  created_at : Nat
  updated_at : Nat
deriving DecidableEq

/-- Row of `submissions` (columns the indexer touches). -/
structure SubmissionRow where
  submission_id : Nat
  bounty_id : Nat
  hunter_id : Nat
  severity : Nat
  status : Nat
  reward_amount : Nat
  submitted_at : Nat
  is_paid : Bool
  block_number : Nat
  tx_hash : String
  updated_at : Nat
  paid_at : Option Nat
deriving DecidableEq

/-- Row of `indexer_state` (key `(contract_address, network)` is UNIQUE). -/
structure IndexerStateRow where
  contract_address : String
  network : String
  last_block : Nat
  last_updated : Nat
deriving DecidableEq

/-- The relational projection state the indexer writes to. -/
structure DB where
  users : List UserRow
  hunter_stats : List HunterStatsRow
  bounties : List BountyRow
  submissions : List SubmissionRow
  indexer_state : List IndexerStateRow
  next_user_id : Nat
  next_bounty_id : Nat
deriving DecidableEq

/-- Semantics of the JS pattern `parseInt(env) || dflt`: an unset or
unparsable variable (`NaN`) and the value `0` are falsy and fall back. -/
def jsOr (v : Option Nat) (dflt : Nat) : Nat :=
  match v with
  | none => dflt
  | some 0 => dflt
  | some (k + 1) => k + 1

/-- Semantics of JS `addr.toLowerCase()` on the ASCII wallet/contract address
strings the indexer normalizes: lowercase each character. -/
def jsToLower (s : String) : String :=
  ⟨s.data.map Char.toLower⟩

/-- Key predicate of the `indexer_state` UNIQUE(contract_address, network) row. -/
def stateKey (c n : String) (r : IndexerStateRow) : Bool :=
  r.contract_address == c && r.network == n

/-- Source `initializeState`: INSERT INTO indexer_state ... ON CONFLICT
(contract_address, network) DO UPDATE SET last_updated = NOW(). -/
def initializeState (c n : String) (startBlock now : Nat) (db : DB) : DB :=
  match db.indexer_state.find? (stateKey c n) with
  | some _ =>
      { db with indexer_state := db.indexer_state.map (fun r =>
          if stateKey c n r then { r with last_updated := now } else r) }
  | none =>
      { db with indexer_state := db.indexer_state ++ [⟨c, n, startBlock, now⟩] }

/-- Source `getLastIndexedBlock`: `result.rows[0]?.last_block ||
parseInt(process.env.INDEXER_START_BLOCK) || 0` (note `0` is falsy). -/
def getLastIndexedBlock (c n : String) (envStartBlock : Option Nat) (db : DB) : Nat :=
  match db.indexer_state.find? (stateKey c n) with
  | some r => if r.last_block = 0 then jsOr envStartBlock 0 else r.last_block
  | none => jsOr envStartBlock 0

/-- Source `updateLastIndexedBlock`: UPDATE indexer_state SET last_block = $1,
last_updated = NOW() WHERE contract_address = $2 AND network = $3 — with no
comparison against the stored value. -/
def updateLastIndexedBlock (c n : String) (blockNumber now : Nat) (db : DB) : DB :=
  { db with indexer_state := db.indexer_state.map (fun r =>
      if stateKey c n r then { r with last_block := blockNumber, last_updated := now } else r) }

/-- UPDATE hunter_stats SET total_submissions = total_submissions + 1 WHERE
wallet_address = $1 (tail of `handleSubmissionCreated`). -/
def bumpTotalSubmissions (w : String) (db : DB) : DB :=
  { db with hunter_stats := db.hunter_stats.map (fun h =>
      if h.wallet_address == w then { h with total_submissions := h.total_submissions + 1 } else h) }

/-- INSERT INTO bounties ... ON CONFLICT (bounty_id) DO UPDATE SET
total_reward, remaining_reward, status, is_active, updated_at = NOW()
(the upsert statement of `handleBountyCreated`). -/
def bountyUpsert (chain : Chain) (e : Event) (bountyId companyId now : Nat) (db : DB) : DB :=
  let bd := chain.bounties bountyId
  match db.bounties.find? (fun b => b.bounty_id == bountyId) with
  | some _ =>
      { db with bounties := db.bounties.map (fun b =>
          if b.bounty_id == bountyId then
            { b with total_reward := bd.totalReward, remaining_reward := bd.remainingReward,
                     status := bd.status, is_active := bd.isActive, updated_at := now }
          else b) }
  | none =>
      { db with
          bounties := db.bounties ++ [{
            id := db.next_bounty_id, bounty_id := bountyId, company_id := companyId,
            target_contract_address := bd.targetContract,
            total_reward := bd.totalReward, remaining_reward := bd.remainingReward,
            lock_amount := bd.lockAmount, status := bd.status, deadline := bd.deadline,
            is_active := bd.isActive, payment_token := bd.paymentToken,
            block_number := e.blockNumber, tx_hash := e.txHash,
            created_at := e.blockTimestamp, updated_at := now }],
          next_bounty_id := db.next_bounty_id + 1 }

/-- Source `handleBountyCreated`: get-or-create the company user (role
'company'), then upsert the bounty row. -/
def handleBountyCreated (chain : Chain) (e : Event) (bountyId : Nat) (company : String)
    (now : Nat) (db : DB) : DB :=
  match db.users.find? (fun u => u.wallet_address == jsToLower company) with
  | some u => bountyUpsert chain e bountyId u.id now db
  | none =>
      bountyUpsert chain e bountyId db.next_user_id now
        { db with
            users := db.users ++ [⟨db.next_user_id, jsToLower company, "company"⟩],
            next_user_id := db.next_user_id + 1 }

/-- INSERT INTO submissions ... ON CONFLICT (submission_id) DO UPDATE SET
severity, status, reward_amount, is_paid, updated_at = NOW()
(the upsert statement of `handleSubmissionCreated`). -/
def submissionUpsert (chain : Chain) (e : Event) (submissionId bountyDbId hunterId now : Nat)
    (db : DB) : DB :=
  let sd := chain.submissions submissionId
  match db.submissions.find? (fun s => s.submission_id == submissionId) with
  | some _ =>
      { db with submissions := db.submissions.map (fun s =>
          if s.submission_id == submissionId then
            { s with severity := sd.severity, status := sd.status,
                     reward_amount := sd.rewardAmount, is_paid := sd.isPaid, updated_at := now }
          else s) }
  | none =>
      { db with submissions := db.submissions ++ [{
          submission_id := submissionId, bounty_id := bountyDbId, hunter_id := hunterId,
          severity := sd.severity, status := sd.status, reward_amount := sd.rewardAmount,
          submitted_at := sd.submittedAt, is_paid := sd.isPaid,
          block_number := e.blockNumber, tx_hash := e.txHash,
          updated_at := now, paid_at := none }] }

/-- Steps of `handleSubmissionCreated` after the hunter get-or-create: look up
the bounty by on-chain id — on a miss the source logs "Bounty not found in
database" and returns normally — else upsert the submission row and then run
the unguarded total_submissions increment. -/
def submissionCreatedRest (chain : Chain) (e : Event) (submissionId bountyId : Nat)
    (hunter : String) (hunterId now : Nat) (db : DB) : DB :=
  match db.bounties.find? (fun b => b.bounty_id == bountyId) with
  | none => db
  | some b =>
      bumpTotalSubmissions (jsToLower hunter)
        (submissionUpsert chain e submissionId b.id hunterId now db)

/-- Source `handleSubmissionCreated`: get-or-create the hunter user (role
'hunter'; a `hunter_stats` row is inserted only in the user-missing branch),
then the remaining steps. -/
def handleSubmissionCreated (chain : Chain) (e : Event) (submissionId bountyId : Nat)
    (hunter : String) (now : Nat) (db : DB) : DB :=
  match db.users.find? (fun u => u.wallet_address == jsToLower hunter) with
  | some u => submissionCreatedRest chain e submissionId bountyId hunter u.id now db
  | none =>
      submissionCreatedRest chain e submissionId bountyId hunter db.next_user_id now
        { db with
            users := db.users ++ [⟨db.next_user_id, jsToLower hunter, "hunter"⟩],
            hunter_stats := db.hunter_stats ++ [⟨jsToLower hunter, 0, 0, 0⟩],
            next_user_id := db.next_user_id + 1 }

/-- Source `handleSubmissionValidated`: UPDATE submissions SET severity = $1,
status = $2, updated_at = NOW() WHERE submission_id = $3, with
status = isValid ? 2 : 3 and no condition on the current status. -/
def handleSubmissionValidated (submissionId severity : Nat) (isValid : Bool) (now : Nat)
    (db : DB) : DB :=
  { db with submissions := db.submissions.map (fun s =>
      if s.submission_id == submissionId then
        { s with severity := severity, status := if isValid then 2 else 3, updated_at := now }
      else s) }

/-- Source `handleRewardPaid`: set is_paid/reward_amount/paid_at on the
submission, then the unguarded hunter_stats increments. -/
def handleRewardPaid (submissionId : Nat) (hunter : String) (amount now : Nat) (db : DB) : DB :=
  let db1 : DB := { db with submissions := db.submissions.map (fun s =>
      if s.submission_id == submissionId then
        { s with is_paid := true, reward_amount := amount, paid_at := some now }
      else s) }
  { db1 with hunter_stats := db1.hunter_stats.map (fun h =>
      if h.wallet_address == jsToLower hunter then
        { h with total_earned := h.total_earned + amount,
                 successful_submissions := h.successful_submissions + 1 }
      else h) }

/-- Source `handleBountyCompleted`: UPDATE bounties SET status = 4,
is_active = FALSE, updated_at = NOW() WHERE bounty_id = $1, unconditionally. -/
def handleBountyCompleted (bountyId now : Nat) (db : DB) : DB :=
  { db with bounties := db.bounties.map (fun b =>
      if b.bounty_id == bountyId then
        { b with status := 4, is_active := false, updated_at := now }
      else b) }

/-- Dispatch of a decoded event to its handler, as the per-event-type
callbacks and per-type loops of the source do. -/
def handleEvent (chain : Chain) (now : Nat) (e : Event) (db : DB) : DB :=
  match e.args with
  | .bountyCreated bountyId company _totalReward =>
      handleBountyCreated chain e bountyId company now db
  | .submissionCreated submissionId bountyId hunter =>
      handleSubmissionCreated chain e submissionId bountyId hunter now db
  | .submissionValidated submissionId severity isValid =>
      handleSubmissionValidated submissionId severity isValid now db
  | .rewardPaid submissionId hunter amount =>
      handleRewardPaid submissionId hunter amount now db
  | .bountyCompleted bountyId =>
      handleBountyCompleted bountyId now db

/-- Event-type test for `filters.BountyCreated()`. -/
def isBountyCreated (e : Event) : Bool :=
  match e.args with
  | .bountyCreated _ _ _ => true
  | _ => false

/-- Event-type test for `filters.SubmissionCreated()`. -/
def isSubmissionCreated (e : Event) : Bool :=
  match e.args with
  | .submissionCreated _ _ _ => true
  | _ => false

/-- Event-type test for `filters.SubmissionValidated()`. -/
def isSubmissionValidated (e : Event) : Bool :=
  match e.args with
  | .submissionValidated _ _ _ => true
  | _ => false

/-- Event-type test for `filters.RewardPaid()`. -/
def isRewardPaid (e : Event) : Bool :=
  match e.args with
  | .rewardPaid _ _ _ => true
  | _ => false

/-- Event-type test for `filters.BountyCompleted()`. -/
def isBountyCompleted (e : Event) : Bool :=
  match e.args with
  | .bountyCompleted _ => true
  | _ => false

/-- Source `queryFilter(filter, fromBlock, toBlock)`: the events of one type in
the inclusive block range, in log order (`log` is the chain's event log sorted
by `(blockNumber, logIndex)`). -/
def queryFilter (log : List Event) (p : Event → Bool) (fromB toB : Nat) : List Event :=
  log.filter (fun e => p e && decide (fromB ≤ e.blockNumber) && decide (e.blockNumber ≤ toB))

/-- Sequential per-event handling: `for (const event of events) await handle(event)`. -/
def applyEvents (chain : Chain) (now : Nat) (events : List Event) (db : DB) : DB :=
  events.foldl (fun d e => handleEvent chain now e d) db

/-- Source `indexBountyCreatedEvents`. -/
def indexBountyCreatedEvents (chain : Chain) (log : List Event) (fromB toB now : Nat)
    (db : DB) : DB :=
  applyEvents chain now (queryFilter log isBountyCreated fromB toB) db

/-- Source `indexSubmissionCreatedEvents`. -/
def indexSubmissionCreatedEvents (chain : Chain) (log : List Event) (fromB toB now : Nat)
    (db : DB) : DB :=
  applyEvents chain now (queryFilter log isSubmissionCreated fromB toB) db

/-- Source `indexSubmissionValidatedEvents`. -/
def indexSubmissionValidatedEvents (chain : Chain) (log : List Event) (fromB toB now : Nat)
    (db : DB) : DB :=
  applyEvents chain now (queryFilter log isSubmissionValidated fromB toB) db

/-- Source `indexRewardPaidEvents`. -/
def indexRewardPaidEvents (chain : Chain) (log : List Event) (fromB toB now : Nat)
    (db : DB) : DB :=
  applyEvents chain now (queryFilter log isRewardPaid fromB toB) db

/-- Source `indexBountyCompletedEvents`. -/
def indexBountyCompletedEvents (chain : Chain) (log : List Event) (fromB toB now : Nat)
    (db : DB) : DB :=
  applyEvents chain now (queryFilter log isBountyCompleted fromB toB) db

/-- The six awaited database steps of one backfill loop body, in source order:
five per-type indexing passes, then `updateLastIndexedBlock(toBlock)`.  Each
step is issued with the plain `query` helper; no transaction surrounds them,
so a crash between steps persists exactly the steps already executed. -/
def batchSteps (chain : Chain) (log : List Event) (c n : String) (fromB toB now : Nat) :
    List (DB → DB) :=
  [indexBountyCreatedEvents chain log fromB toB now,
   indexSubmissionCreatedEvents chain log fromB toB now,
   indexSubmissionValidatedEvents chain log fromB toB now,
   indexRewardPaidEvents chain log fromB toB now,
   indexBountyCompletedEvents chain log fromB toB now,
   updateLastIndexedBlock c n toB now]

/-- Run a list of database steps in order. -/
def runSteps (steps : List (DB → DB)) (db : DB) : DB :=
  steps.foldl (fun d f => f d) db

/-- The order in which one loop body applies the events of a block range:
grouped by event type in the fixed source order, each group in log order. -/
def appliedOrder (log : List Event) (fromB toB : Nat) : List Event :=
  queryFilter log isBountyCreated fromB toB ++
  queryFilter log isSubmissionCreated fromB toB ++
  queryFilter log isSubmissionValidated fromB toB ++
  queryFilter log isRewardPaid fromB toB ++
  queryFilter log isBountyCompleted fromB toB

/-- The `(fromBlock, toBlock)` pairs fetched by the backfill loop
`for (let i = lastBlock; i <= currentBlock; i += batchSize)` with
`fromBlock = i` and `toBlock = min(i + batchSize - 1, currentBlock)`;
`cur` is the head block read once before the loop. -/
def backfillRanges (cur bs : Nat) (hb : 0 < bs) (i : Nat) : List (Nat × Nat) :=
  if h : i ≤ cur then
    (i, min (i + bs - 1) cur) :: backfillRanges cur bs hb (i + bs)
  else []
termination_by cur + 1 - i
decreasing_by omega

/-- The backfill loop of `indexHistoricalEvents`, applying the six steps of
each batch in turn. -/
def backfillLoop (chain : Chain) (log : List Event) (c n : String) (cur bs : Nat)
    (hb : 0 < bs) (now i : Nat) (db : DB) : DB :=
  if h : i ≤ cur then
    backfillLoop chain log c n cur bs hb now (i + bs)
      (runSteps (batchSteps chain log c n i (min (i + bs - 1) cur) now) db)
  else db
termination_by cur + 1 - i
decreasing_by omega

/-- Source `indexHistoricalEvents`: read the checkpoint and the head once,
return immediately when `lastBlock >= currentBlock`, else run the batch loop
from `i = lastBlock` (the head is not re-read inside the loop). -/
def indexHistoricalEvents (chain : Chain) (log : List Event) (c n : String)
    (envStartBlock envBatchSize : Option Nat) (currentBlock now : Nat) (db : DB) : DB :=
  let lastBlock := getLastIndexedBlock c n envStartBlock db
  if currentBlock ≤ lastBlock then db
  else
    backfillLoop chain log c n currentBlock (jsOr envBatchSize 1000)
      (by cases envBatchSize with
          | none => decide
          | some k => cases k with
            | zero => decide
            | succ m => exact Nat.succ_pos m)
      now lastBlock db

/-- Source `startRealtimeIndexing`: each arriving event is handled immediately
by its per-type callback — one handler call per event, no buffering, no batch
transaction, and no checkpoint update anywhere on this path. -/
def streamEvents (chain : Chain) (now : Nat) (events : List Event) (db : DB) : DB :=
  events.foldl (fun d e => handleEvent chain now e d) db

/-- Strict lexicographic order on the `(blockNumber, logIndex)` ordering key of
an event log. -/
def evKeyLt (a b : Event) : Prop :=
  a.blockNumber < b.blockNumber ∨ (a.blockNumber = b.blockNumber ∧ a.logIndex < b.logIndex)

instance (a b : Event) : Decidable (evKeyLt a b) :=
  inferInstanceAs (Decidable (a.blockNumber < b.blockNumber
    ∨ (a.blockNumber = b.blockNumber ∧ a.logIndex < b.logIndex)))

/-! Concrete fixtures used to evaluate the definitions on explicit inputs. -/

/-- A concrete contract state: every bounty id maps to one snapshot, every
submission id to one snapshot (severity 0, status 1 = pending, unpaid). -/
def chainW : Chain :=
  ⟨fun _ => ⟨"0xtc", 100, 100, 10, 0, 99, true, "0xtok"⟩,
   fun _ => ⟨0, 1, 0, 42, false⟩⟩

/-- The empty database (serial counters at 1). -/
def emptyDB : DB :=
  { users := [], hunter_stats := [], bounties := [], submissions := [],
    indexer_state := [], next_user_id := 1, next_bounty_id := 1 }

/-- A BountyCreated event for bounty 2 at block 3. -/
def eBC : Event := ⟨3, 0, "t2", 0, .bountyCreated 2 "0xAA" 100⟩

/-- A BountyCompleted event for bounty 1 at block 2 (earlier block than `eBC`). -/
def eBCo : Event := ⟨2, 0, "t1", 0, .bountyCompleted 1⟩

/-- A SubmissionCreated event referencing bounty 9, which exists in no fixture
database: a structurally invalid (causality-violating) event. -/
def eSCbad : Event := ⟨4, 0, "t4", 0, .submissionCreated 1 9 "0xBB"⟩

/-- A SubmissionCreated event for submission 5 of bounty 1 by hunter 0xbb. -/
def eSC : Event := ⟨6, 0, "t6", 0, .submissionCreated 5 1 "0xbb"⟩

/-- A RewardPaid event at block 50 for submission 3. -/
def eRP50 : Event := ⟨50, 0, "t50", 0, .rewardPaid 3 "0xBB" 47500⟩

/-- A BountyCreated event for bounty 7 by company 0xAB at block 1. -/
def eBC9 : Event := ⟨1, 0, "t9", 0, .bountyCreated 7 "0xAB" 100⟩

/-- A SubmissionCreated event for submission 3 of bounty 7 by hunter 0xAB. -/
def eSC9 : Event := ⟨2, 0, "t11", 0, .submissionCreated 3 7 "0xAB"⟩

/-- A bounty row for on-chain bounty 1. -/
def bounty1Row : BountyRow :=
  { id := 1, bounty_id := 1, company_id := 1, target_contract_address := "0xtc",
    total_reward := 100, remaining_reward := 100, lock_amount := 10, status := 0,
    deadline := 99, is_active := true, payment_token := "0xtok",
    block_number := 1, tx_hash := "tx1", created_at := 0, updated_at := 0 }

/-- A database holding hunter 0xbb (with a zeroed `hunter_stats` row), bounty 1
and the still-pending, unpaid submission 3 by that hunter. -/
def dbRP : DB :=
  { users := [⟨1, "0xbb", "hunter"⟩],
    hunter_stats := [⟨"0xbb", 0, 0, 0⟩],
    bounties := [bounty1Row],
    submissions := [⟨3, 1, 1, 0, 1, 0, 42, false, 5, "tx3", 0, none⟩],
    indexer_state := [], next_user_id := 2, next_bounty_id := 2 }

/-- An otherwise empty database whose checkpoint row stands at block 0. -/
def dbC2 : DB := { emptyDB with indexer_state := [⟨"0xc", "sepolia", 0, 0⟩] }

/-- An otherwise empty database whose checkpoint row stands at block 100. -/
def dbC4 : DB := { emptyDB with indexer_state := [⟨"0xc", "sepolia", 100, 0⟩] }

/-- A database where submission 3 is already Valid (status 2, not Pending) and
bounty 1 is already Cancelled (status 5, not Active). -/
def dbC5 : DB :=
  { emptyDB with
      submissions := [⟨3, 1, 1, 2, 2, 500, 42, false, 5, "tx3", 0, none⟩],
      bounties := [{ bounty1Row with status := 5, is_active := false }] }

/-- The fixture database `dbRP` with its checkpoint row standing at block 10. -/
def dbC8 : DB := { dbRP with indexer_state := [⟨"0xc", "sepolia", 10, 0⟩] }

/-- The database produced by delivering BountyCreated for bounty 7 by company
0xAB to the empty database: wallet 0xab exists in `users` with role
'company' and `hunter_stats` is empty. -/
def dbC9 : DB := handleBountyCreated chainW eBC9 7 "0xAB" 5 emptyDB

/-! Generic lemmas about the SQL-style `UPDATE ... WHERE key` pattern
(`List.map` with a keyed conditional) and `SELECT ... WHERE key`
(`List.find?`). -/

theorem find?_map_update {α : Type} (p : α → Bool) (f : α → α) (l : List α)
    (hpf : ∀ a, p a = true → p (f a) = true) :
    (l.map (fun a => if p a then f a else a)).find? p = (l.find? p).map f := by
  induction l with
  | nil => rfl
  | cons x xs ih =>
      by_cases hx : p x
      · simp [List.find?, hx, hpf x hx]
      · simp [List.find?, hx, ih]

theorem map_update_of_find?_none {α : Type} (p : α → Bool) (f : α → α) (l : List α)
    (hl : l.find? p = none) :
    l.map (fun a => if p a then f a else a) = l := by
  have hall := List.find?_eq_none.mp hl
  calc l.map (fun a => if p a then f a else a) = l.map id := by
        refine List.map_congr_left ?_
        intro a ha
        simp [hall a ha]
    _ = l := List.map_id l

/-! Frame lemmas: which tables each handler leaves untouched.  In particular
no handler ever writes `indexer_state`; only `updateLastIndexedBlock` and
`initializeState` do. -/

theorem bountyUpsert_frame (chain : Chain) (e : Event) (bountyId companyId now : Nat)
    (db : DB) :
    (bountyUpsert chain e bountyId companyId now db).users = db.users ∧
    (bountyUpsert chain e bountyId companyId now db).hunter_stats = db.hunter_stats ∧
    (bountyUpsert chain e bountyId companyId now db).submissions = db.submissions ∧
    (bountyUpsert chain e bountyId companyId now db).indexer_state = db.indexer_state := by
  unfold bountyUpsert
  split <;> exact ⟨rfl, rfl, rfl, rfl⟩

theorem handleBountyCreated_frame (chain : Chain) (e : Event) (bountyId : Nat)
    (company : String) (now : Nat) (db : DB) :
    (handleBountyCreated chain e bountyId company now db).hunter_stats = db.hunter_stats ∧
    (handleBountyCreated chain e bountyId company now db).submissions = db.submissions ∧
    (handleBountyCreated chain e bountyId company now db).indexer_state = db.indexer_state := by
  unfold handleBountyCreated
  split
  · exact ⟨(bountyUpsert_frame ..).2.1, (bountyUpsert_frame ..).2.2.1,
      (bountyUpsert_frame ..).2.2.2⟩
  · exact ⟨(bountyUpsert_frame ..).2.1, (bountyUpsert_frame ..).2.2.1,
      (bountyUpsert_frame ..).2.2.2⟩

theorem submissionUpsert_frame (chain : Chain) (e : Event)
    (submissionId bountyDbId hunterId now : Nat) (db : DB) :
    (submissionUpsert chain e submissionId bountyDbId hunterId now db).users = db.users ∧
    (submissionUpsert chain e submissionId bountyDbId hunterId now db).hunter_stats
      = db.hunter_stats ∧
    (submissionUpsert chain e submissionId bountyDbId hunterId now db).bounties = db.bounties ∧
    (submissionUpsert chain e submissionId bountyDbId hunterId now db).indexer_state
      = db.indexer_state := by
  unfold submissionUpsert
  split <;> exact ⟨rfl, rfl, rfl, rfl⟩

theorem bumpTotalSubmissions_frame (w : String) (db : DB) :
    (bumpTotalSubmissions w db).users = db.users ∧
    (bumpTotalSubmissions w db).bounties = db.bounties ∧
    (bumpTotalSubmissions w db).submissions = db.submissions ∧
    (bumpTotalSubmissions w db).indexer_state = db.indexer_state :=
  ⟨rfl, rfl, rfl, rfl⟩

theorem submissionCreatedRest_frame (chain : Chain) (e : Event) (submissionId bountyId : Nat)
    (hunter : String) (hunterId now : Nat) (db : DB) :
    (submissionCreatedRest chain e submissionId bountyId hunter hunterId now db).users
      = db.users ∧
    (submissionCreatedRest chain e submissionId bountyId hunter hunterId now db).bounties
      = db.bounties ∧
    (submissionCreatedRest chain e submissionId bountyId hunter hunterId now db).indexer_state
      = db.indexer_state := by
  unfold submissionCreatedRest
  split
  · exact ⟨rfl, rfl, rfl⟩
  · refine ⟨?_, ?_, ?_⟩
    · rw [(bumpTotalSubmissions_frame ..).1, (submissionUpsert_frame ..).1]
    · rw [(bumpTotalSubmissions_frame ..).2.1, (submissionUpsert_frame ..).2.2.1]
    · rw [(bumpTotalSubmissions_frame ..).2.2.2, (submissionUpsert_frame ..).2.2.2]

theorem handleSubmissionCreated_frame (chain : Chain) (e : Event)
    (submissionId bountyId : Nat) (hunter : String) (now : Nat) (db : DB) :
    (handleSubmissionCreated chain e submissionId bountyId hunter now db).bounties
      = db.bounties ∧
    (handleSubmissionCreated chain e submissionId bountyId hunter now db).indexer_state
      = db.indexer_state := by
  unfold handleSubmissionCreated
  split
  · exact ⟨(submissionCreatedRest_frame ..).2.1, (submissionCreatedRest_frame ..).2.2⟩
  · exact ⟨(submissionCreatedRest_frame ..).2.1, (submissionCreatedRest_frame ..).2.2⟩

theorem handleSubmissionValidated_frame (submissionId severity : Nat) (isValid : Bool)
    (now : Nat) (db : DB) :
    (handleSubmissionValidated submissionId severity isValid now db).users = db.users ∧
    (handleSubmissionValidated submissionId severity isValid now db).hunter_stats
      = db.hunter_stats ∧
    (handleSubmissionValidated submissionId severity isValid now db).bounties = db.bounties ∧
    (handleSubmissionValidated submissionId severity isValid now db).indexer_state
      = db.indexer_state :=
  ⟨rfl, rfl, rfl, rfl⟩

theorem handleRewardPaid_frame (submissionId : Nat) (hunter : String) (amount now : Nat)
    (db : DB) :
    (handleRewardPaid submissionId hunter amount now db).users = db.users ∧
    (handleRewardPaid submissionId hunter amount now db).bounties = db.bounties ∧
    (handleRewardPaid submissionId hunter amount now db).indexer_state = db.indexer_state :=
  ⟨rfl, rfl, rfl⟩

theorem handleBountyCompleted_frame (bountyId now : Nat) (db : DB) :
    (handleBountyCompleted bountyId now db).users = db.users ∧
    (handleBountyCompleted bountyId now db).hunter_stats = db.hunter_stats ∧
    (handleBountyCompleted bountyId now db).submissions = db.submissions ∧
    (handleBountyCompleted bountyId now db).indexer_state = db.indexer_state :=
  ⟨rfl, rfl, rfl, rfl⟩

theorem handleEvent_indexer_state (chain : Chain) (now : Nat) (e : Event) (db : DB) :
    (handleEvent chain now e db).indexer_state = db.indexer_state := by
  unfold handleEvent
  cases e.args with
  | bountyCreated bountyId company totalReward => exact (handleBountyCreated_frame ..).2.2
  | submissionCreated submissionId bountyId hunter =>
      exact (handleSubmissionCreated_frame ..).2
  | submissionValidated submissionId severity isValid =>
      exact (handleSubmissionValidated_frame ..).2.2.2
  | rewardPaid submissionId hunter amount => exact (handleRewardPaid_frame ..).2.2
  | bountyCompleted bountyId => exact (handleBountyCompleted_frame ..).2.2.2

theorem applyEvents_indexer_state (chain : Chain) (now : Nat) :
    ∀ (events : List Event) (db : DB),
      (applyEvents chain now events db).indexer_state = db.indexer_state := by
  intro events
  induction events with
  | nil => intro db; rfl
  | cons e es ih =>
      intro db
      have h1 : applyEvents chain now (e :: es) db
          = applyEvents chain now es (handleEvent chain now e db) := rfl
      rw [h1, ih, handleEvent_indexer_state]

/-- C1: the claim asserts that delivering the same event twice yields the same
projection state as delivering it once.  Evaluating the code at the failing
input: delivering the same RewardPaid (submission 3, hunter 0xbb, amount
47500) twice drives hunter_stats(0xbb) to total_earned = 95000 and
successful_submissions = 2, instead of the single-delivery values 47500 and 1;
delivering the same SubmissionCreated twice drives total_submissions to 2
instead of 1 — the increments are unguarded `+=` updates. -/
theorem c1_duplicate_delivery_not_idempotent :
    ((handleRewardPaid 3 "0xBB" 47500 7 dbRP).hunter_stats
        = [⟨"0xbb", 47500, 1, 0⟩]
      ∧ (handleRewardPaid 3 "0xBB" 47500 7 (handleRewardPaid 3 "0xBB" 47500 7 dbRP)).hunter_stats
        = [⟨"0xbb", 95000, 2, 0⟩])
    ∧ ((handleSubmissionCreated chainW eSC 5 1 "0xbb" 7 dbRP).hunter_stats
        = [⟨"0xbb", 0, 0, 1⟩]
      ∧ (handleSubmissionCreated chainW eSC 5 1 "0xbb" 7
            (handleSubmissionCreated chainW eSC 5 1 "0xbb" 7 dbRP)).hunter_stats
        = [⟨"0xbb", 0, 0, 2⟩]) := by
  decide

/-- C2 counterexample: the claim asserts projection writes and checkpoint
advancement take effect atomically (both or neither).  In the code each of the
six loop-body steps is its own awaited `query` call with no transaction: after
the first step of a one-event batch (a crash point), the BountyCreated
projection write is applied while the checkpoint row is untouched — a state
that is neither the initial nor the final state of the batch. -/
theorem c2_crash_mid_batch_not_atomic :
    (runSteps ((batchSteps chainW [eBC] "0xc" "sepolia" 0 10 7).take 1) dbC2).bounties ≠ []
    ∧ (runSteps ((batchSteps chainW [eBC] "0xc" "sepolia" 0 10 7).take 1) dbC2).indexer_state
        = dbC2.indexer_state
    ∧ (runSteps (batchSteps chainW [eBC] "0xc" "sepolia" 0 10 7) dbC2).indexer_state
        ≠ dbC2.indexer_state
    ∧ ¬ (runSteps ((batchSteps chainW [eBC] "0xc" "sepolia" 0 10 7).take 1) dbC2 = dbC2
          ∨ runSteps ((batchSteps chainW [eBC] "0xc" "sepolia" 0 10 7).take 1) dbC2
              = runSteps (batchSteps chainW [eBC] "0xc" "sepolia" 0 10 7) dbC2) := by
  refine ⟨by decide, by decide, by decide, by decide⟩

/-- C2 amended: the checkpoint update is the last of the six batch steps, and
none of the five projection-write steps touches `indexer_state`; so a crash
anywhere before the final step leaves the checkpoint unchanged (while
projection writes may already be applied — the writes and the checkpoint do
not commit atomically, but the checkpoint is never advanced without the
batch's projection writes having run). -/
theorem c2_checkpoint_only_last_step (chain : Chain) (log : List Event) (c n : String)
    (fromB toB now : Nat) (db : DB) (k : Nat) (hk : k ≤ 5) :
    (runSteps ((batchSteps chain log c n fromB toB now).take k) db).indexer_state
      = db.indexer_state := by
  interval_cases k <;>
    simp [runSteps, batchSteps, List.take, indexBountyCreatedEvents,
      indexSubmissionCreatedEvents, indexSubmissionValidatedEvents, indexRewardPaidEvents,
      indexBountyCompletedEvents, applyEvents_indexer_state]

/-- C2 witness: the amended theorem applied after three of the six steps of a
concrete batch. -/
theorem c2_checkpoint_only_last_step_witness :
    (runSteps ((batchSteps chainW [eBC] "0xc" "sepolia" 0 10 7).take 3) dbC2).indexer_state
      = dbC2.indexer_state :=
  c2_checkpoint_only_last_step chainW [eBC] "0xc" "sepolia" 0 10 7 dbC2 3 (by decide)

/-- C3 counterexample: the claim asserts a structurally invalid event is
reported as a fatal Structural error that halts forward progress.  Evaluating
the code: a SubmissionCreated referencing the nonexistent bounty 9 completes
normally (it only get-or-creates the hunter user and stats row, then returns),
creates no Submission row, and the batch continues — the following
BountyCreated event is still applied. -/
theorem c3_invalid_event_skipped_not_fatal :
    (applyEvents chainW 7 [eSCbad, eBC] emptyDB).submissions = []
    ∧ (applyEvents chainW 7 [eSCbad, eBC] emptyDB).bounties.length = 1
    ∧ handleSubmissionCreated chainW eSCbad 1 9 "0xBB" 7 emptyDB
        = { emptyDB with
              users := [⟨1, "0xbb", "hunter"⟩],
              hunter_stats := [⟨"0xbb", 0, 0, 0⟩],
              next_user_id := 2 } := by
  refine ⟨by decide, by decide, by decide⟩

/-- C3 amended: when `handleSubmissionCreated` references a bountyId with no
Bounty row it returns normally after the hunter get-or-create: no Submission
row is created (`submissions`, `bounties` and `indexer_state` are left
exactly as they were), no error is raised, and processing continues with the
next event rather than halting. -/
theorem c3_missing_bounty_frame (chain : Chain) (e : Event) (submissionId bountyId : Nat)
    (hunter : String) (now : Nat) (db : DB)
    (hb : db.bounties.find? (fun b => b.bounty_id == bountyId) = none) :
    (handleSubmissionCreated chain e submissionId bountyId hunter now db).submissions
      = db.submissions
    ∧ (handleSubmissionCreated chain e submissionId bountyId hunter now db).bounties
      = db.bounties
    ∧ (handleSubmissionCreated chain e submissionId bountyId hunter now db).indexer_state
      = db.indexer_state := by
  unfold handleSubmissionCreated submissionCreatedRest
  split
  · rw [hb]
    exact ⟨rfl, rfl, rfl⟩
  · rw [hb]
    exact ⟨rfl, rfl, rfl⟩

/-- C3 witness: the amended theorem applied to the structurally invalid event
`eSCbad` over the empty database. -/
theorem c3_missing_bounty_frame_witness :
    (handleSubmissionCreated chainW eSCbad 1 9 "0xBB" 7 emptyDB).submissions
        = emptyDB.submissions
    ∧ (handleSubmissionCreated chainW eSCbad 1 9 "0xBB" 7 emptyDB).bounties
        = emptyDB.bounties
    ∧ (handleSubmissionCreated chainW eSCbad 1 9 "0xBB" 7 emptyDB).indexer_state
        = emptyDB.indexer_state :=
  c3_missing_bounty_frame chainW eSCbad 1 9 "0xBB" 7 emptyDB (by decide)

/-- C4 counterexample: the claim asserts advancing the checkpoint to a height
strictly below the stored one fails with a RegressionError.  Evaluating the
code: with the checkpoint at 100, `updateLastIndexedBlock` with height 5
succeeds and overwrites the stored value with 5 — there is no guard and no
RegressionError (nor any rewind operation) anywhere in the source. -/
theorem c4_backward_advance_succeeds :
    (updateLastIndexedBlock "0xc" "sepolia" 5 7 dbC4).indexer_state
      = [⟨"0xc", "sepolia", 5, 7⟩] ∧ (5 : Nat) < 100 := by
  refine ⟨by decide, by decide⟩

/-- C4 amended: `updateLastIndexedBlock` unconditionally overwrites the stored
`last_block` of the `(contract_address, network)` row with the given height,
also when that height is strictly less than the stored checkpoint; nothing
fails and no separate rewind operation exists. -/
theorem c4_unconditional_overwrite (c n : String) (newHeight now : Nat) (db : DB)
    (r : IndexerStateRow)
    (hr : db.indexer_state.find? (stateKey c n) = some r)
    (hlt : newHeight < r.last_block) :
    (updateLastIndexedBlock c n newHeight now db).indexer_state.find? (stateKey c n)
      = some { r with last_block := newHeight, last_updated := now } := by
  unfold updateLastIndexedBlock
  rw [find?_map_update (stateKey c n)
        (fun x => { x with last_block := newHeight, last_updated := now })
        db.indexer_state (fun a ha => ha),
      hr]
  rfl

/-- C4 witness: the amended theorem applied to a checkpoint at 100 being
overwritten backward to 5. -/
theorem c4_unconditional_overwrite_witness :
    (updateLastIndexedBlock "0xc" "sepolia" 5 7 dbC4).indexer_state.find?
        (stateKey "0xc" "sepolia")
      = some ⟨"0xc", "sepolia", 5, 7⟩ :=
  c4_unconditional_overwrite "0xc" "sepolia" 5 7 dbC4 ⟨"0xc", "sepolia", 100, 0⟩
    (by decide) (by decide)

/-- C5 counterexample: the claim asserts `handleSubmissionValidated` changes a
submission's status only when the current status is Pending, and that
backward transitions are rejected.  Evaluating the code: submission 3 already
has status 2 (Valid, not Pending), yet SubmissionValidated with isValid=false
overwrites it to 3; bounty 1 already has terminal status 5 (Cancelled, not
Active), yet BountyCompleted overwrites it to 4 — nothing is rejected. -/
theorem c5_status_overwritten_unconditionally :
    (handleSubmissionValidated 3 1 false 7 dbC5).submissions
      = [⟨3, 1, 1, 1, 3, 500, 42, false, 5, "tx3", 7, none⟩]
    ∧ (handleBountyCompleted 1 7 dbC5).bounties
      = [{ bounty1Row with status := 4, is_active := false, updated_at := 7 }] := by
  refine ⟨by decide, by decide⟩

/-- C5 amended: `handleSubmissionValidated` unconditionally overwrites the
matching submission's severity and sets its status to 2 (if valid) or 3
(if not) regardless of the current status, and `handleBountyCompleted`
unconditionally sets the matching bounty's status to 4 and is_active to false
regardless of its current status; no forward-only guard and no rejection of
backward transitions exists. -/
theorem c5_unconditional_status_set (submissionId severity : Nat) (isValid : Bool)
    (bountyId nowS nowB : Nat) (db1 db2 : DB) (s : SubmissionRow) (b : BountyRow)
    (hs : db1.submissions.find? (fun x => x.submission_id == submissionId) = some s)
    (hb : db2.bounties.find? (fun x => x.bounty_id == bountyId) = some b) :
    (handleSubmissionValidated submissionId severity isValid nowS db1).submissions.find?
        (fun x => x.submission_id == submissionId)
      = some { s with severity := severity, status := if isValid then 2 else 3,
                      updated_at := nowS }
    ∧ (handleBountyCompleted bountyId nowB db2).bounties.find?
        (fun x => x.bounty_id == bountyId)
      = some { b with status := 4, is_active := false, updated_at := nowB } := by
  constructor
  · unfold handleSubmissionValidated
    rw [find?_map_update (fun x => x.submission_id == submissionId)
          (fun x => { x with severity := severity, status := if isValid then 2 else 3,
                             updated_at := nowS })
          db1.submissions (fun a ha => ha),
        hs]
    rfl
  · unfold handleBountyCompleted
    rw [find?_map_update (fun x => x.bounty_id == bountyId)
          (fun x => { x with status := 4, is_active := false, updated_at := nowB })
          db2.bounties (fun a ha => ha),
        hb]
    rfl

/-- C5 witness: the amended theorem applied to the already-Valid submission 3
and the already-Cancelled bounty 1. -/
theorem c5_unconditional_status_set_witness :
    (handleSubmissionValidated 3 1 false 7 dbC5).submissions.find?
        (fun x => x.submission_id == 3)
      = some ⟨3, 1, 1, 1, 3, 500, 42, false, 5, "tx3", 7, none⟩
    ∧ (handleBountyCompleted 1 7 dbC5).bounties.find? (fun x => x.bounty_id == 1)
      = some { bounty1Row with status := 4, is_active := false, updated_at := 7 } :=
  c5_unconditional_status_set 3 1 false 1 7 7 dbC5 dbC5
    ⟨3, 1, 1, 2, 2, 500, 42, false, 5, "tx3", 0, none⟩
    { bounty1Row with status := 5, is_active := false }
    (by decide) (by decide)

/-- Membership in `backfillRanges`: every fetched range `(a, b)` has
`b = min (a + batchSize - 1) head` and starts at or after the loop's start. -/
theorem backfillRanges_mem (cur bs : Nat) (hb : 0 < bs) :
    ∀ (i : Nat), ∀ pr ∈ backfillRanges cur bs hb i,
      pr.2 = min (pr.1 + bs - 1) cur ∧ i ≤ pr.1 := by
  have H : ∀ (d i : Nat), cur + 1 - i ≤ d → ∀ pr ∈ backfillRanges cur bs hb i,
      pr.2 = min (pr.1 + bs - 1) cur ∧ i ≤ pr.1 := by
    intro d
    induction d with
    | zero =>
        intro i hi pr hpr
        rw [backfillRanges] at hpr
        have hcur : ¬ i ≤ cur := by omega
        simp [hcur] at hpr
    | succ d ih =>
        intro i hi pr hpr
        rw [backfillRanges] at hpr
        by_cases hcur : i ≤ cur
        · simp only [hcur, dif_pos, List.mem_cons] at hpr
          rcases hpr with rfl | hpr
          · exact ⟨rfl, le_rfl⟩
          · have h2 := ih (i + bs) (by omega) pr hpr
            exact ⟨h2.1, by omega⟩
        · simp [hcur] at hpr
  intro i pr hpr
  exact H (cur + 1 - i) i le_rfl pr hpr

/-- C6 counterexample: the claim asserts each backfill iteration fetches
`[checkpoint+1, min(checkpoint+batchSize, head)]`.  With checkpoint 10, batch
size 5 and head 20, the first range the code fetches is `(10, 14)` — it starts
at the checkpoint itself (re-fetching the already-indexed block 10) and ends
at `checkpoint + batchSize - 1`, not the claimed `(11, 15)`. -/
theorem c6_first_range_starts_at_checkpoint :
    (backfillRanges 20 5 (by decide) 10).head? = some (10, 14)
    ∧ ((10 : Nat), (14 : Nat)) ≠ ((10 + 1 : Nat), min (10 + 5) 20) := by
  constructor
  · rw [backfillRanges]
    norm_num
  · decide

/-- C6 amended: each backfill iteration fetches the block range
`[p, min(p + batchSize - 1, head)]` where `p` starts at the stored checkpoint
itself (not checkpoint+1) and advances by batchSize, and `head` is the block
height read once before the loop (the loop never re-reads it; streaming then
starts unconditionally after the loop). -/
theorem c6_range_shape (cur bs : Nat) (hb : 0 < bs) (ck : Nat) (hck : ck ≤ cur) :
    (backfillRanges cur bs hb ck).head? = some (ck, min (ck + bs - 1) cur)
    ∧ ∀ pr ∈ backfillRanges cur bs hb ck,
        pr.2 = min (pr.1 + bs - 1) cur ∧ ck ≤ pr.1 := by
  constructor
  · rw [backfillRanges]
    simp [hck]
  · exact backfillRanges_mem cur bs hb ck

/-- C6 witness: the amended theorem at checkpoint 10, batch size 5, head 20. -/
theorem c6_range_shape_witness :
    (backfillRanges 20 5 (by decide) 10).head? = some (10, min (10 + 5 - 1) 20)
    ∧ ∀ pr ∈ backfillRanges 20 5 (by decide) 10,
        pr.2 = min (pr.1 + 5 - 1) 20 ∧ 10 ≤ pr.1 :=
  c6_range_shape 20 5 (by decide) 10 (by decide)

/-- Elements of `queryFilter log p fromB toB` satisfy the type test `p`. -/
theorem mem_queryFilter_prop {log : List Event} {p : Event → Bool} {fromB toB : Nat}
    {e : Event} (he : e ∈ queryFilter log p fromB toB) : p e = true := by
  have h := (List.mem_filter.mp he).2
  simp only [Bool.and_eq_true] at h
  exact h.1.1

/-- The five event-type tests are mutually exclusive. -/
theorem eventTypeDisjoint (e : Event) :
    (isBountyCreated e = true → isSubmissionValidated e = false)
    ∧ (isSubmissionCreated e = true → isSubmissionValidated e = false)
    ∧ (isSubmissionValidated e = true → isSubmissionCreated e = false)
    ∧ (isRewardPaid e = true → isSubmissionCreated e = false)
    ∧ (isBountyCompleted e = true → isSubmissionCreated e = false) := by
  rcases e with ⟨bn, li, tx, ts, args⟩
  cases args <;>
    simp [isBountyCreated, isSubmissionCreated, isSubmissionValidated, isRewardPaid,
      isBountyCompleted]

/-- One loop body applies exactly the events of `appliedOrder` in that order:
the five per-type passes compose to a single fold over the concatenation of
the per-type filtered lists. -/
theorem runSteps_take5_eq_appliedOrder (chain : Chain) (log : List Event) (c n : String)
    (fromB toB now : Nat) (db : DB) :
    runSteps ((batchSteps chain log c n fromB toB now).take 5) db
      = applyEvents chain now (appliedOrder log fromB toB) db := by
  simp [runSteps, batchSteps, appliedOrder, applyEvents, indexBountyCreatedEvents,
    indexSubmissionCreatedEvents, indexSubmissionValidatedEvents, indexRewardPaidEvents,
    indexBountyCompletedEvents, List.foldl_append]

/-- C7 counterexample: the claim asserts events of one batch are applied in
strictly ascending `(blockNumber, logIndex)` order interleaved across types.
For a log holding BountyCompleted at block 2 before BountyCreated at block 3,
the code applies the BountyCreated pass first: the applied order is the
type-grouped `[eBC, eBCo]`, whose consecutive pair violates the ascending
key order the claim asserts (the log itself was ascending). -/
theorem c7_not_applied_in_block_order :
    appliedOrder [eBCo, eBC] 0 10 = [eBC, eBCo]
    ∧ evKeyLt eBCo eBC
    ∧ ¬ evKeyLt eBC eBCo := by
  refine ⟨by decide, by decide, by decide⟩

/-- C7 amended: within one batch, events are applied grouped by event type in
the fixed order BountyCreated, SubmissionCreated, SubmissionValidated,
RewardPaid, BountyCompleted (each group in log order), not interleaved by
`(blockNumber, logIndex)` across types; in particular the applied order splits
into a first part free of SubmissionValidated events and a second part free
of SubmissionCreated events, so every SubmissionCreated of a batch is still
applied before every same-batch SubmissionValidated. -/
theorem c7_type_grouped_order (log : List Event) (fromB toB : Nat) :
    ∃ l₁ l₂, appliedOrder log fromB toB = l₁ ++ l₂
      ∧ (∀ e ∈ l₁, isSubmissionValidated e = false)
      ∧ (∀ e ∈ l₂, isSubmissionCreated e = false) := by
  refine ⟨queryFilter log isBountyCreated fromB toB
      ++ queryFilter log isSubmissionCreated fromB toB,
    queryFilter log isSubmissionValidated fromB toB
      ++ (queryFilter log isRewardPaid fromB toB
        ++ queryFilter log isBountyCompleted fromB toB), ?_, ?_, ?_⟩
  · simp [appliedOrder, List.append_assoc]
  · intro e he
    rcases List.mem_append.mp he with h | h
    · exact (eventTypeDisjoint e).1 (mem_queryFilter_prop h)
    · exact (eventTypeDisjoint e).2.1 (mem_queryFilter_prop h)
  · intro e he
    rcases List.mem_append.mp he with h | h
    · exact (eventTypeDisjoint e).2.2.1 (mem_queryFilter_prop h)
    · rcases List.mem_append.mp h with h2 | h2
      · exact (eventTypeDisjoint e).2.2.2.1 (mem_queryFilter_prop h2)
      · exact (eventTypeDisjoint e).2.2.2.2 (mem_queryFilter_prop h2)

/-- C8 counterexample: the claim asserts streaming-mode batches advance the
checkpoint to the highest buffered block number.  Evaluating the code: a
RewardPaid event at block 50 arriving in streaming mode is fully processed
(the submission row changes), yet the stored checkpoint row stays at block
10 — `startRealtimeIndexing`'s callbacks never call
`updateLastIndexedBlock`. -/
theorem c8_stream_checkpoint_unchanged_concrete :
    (streamEvents chainW 7 [eRP50] dbC8).submissions ≠ dbC8.submissions
    ∧ (streamEvents chainW 7 [eRP50] dbC8).indexer_state = [⟨"0xc", "sepolia", 10, 0⟩]
    ∧ eRP50.blockNumber = 50 := by
  refine ⟨by decide, by decide, by decide⟩

/-- C8 amended: in streaming mode each arriving event is handled immediately
by its per-event-type callback — there is no buffering, no shared batch
transaction, and no checkpoint write at all: for every sequence of streamed
events the stored `indexer_state` is left exactly as it was, so events
processed in streaming mode are never reflected in the stored checkpoint. -/
theorem c8_stream_never_advances_checkpoint (chain : Chain) (now : Nat)
    (events : List Event) (db : DB) :
    (streamEvents chain now events db).indexer_state = db.indexer_state :=
  applyEvents_indexer_state chain now events db

/-- C9: for a SubmissionCreated event whose hunter wallet already exists in
`users` (for example one previously inserted with role 'company' by
`handleBountyCreated`) while no `hunter_stats` row exists for it,
`handleSubmissionCreated` creates no `hunter_stats` row and its
total_submissions increment matches zero rows: the `hunter_stats` table is
left exactly unchanged, so that hunter's statistics stay absent. -/
theorem c9_existing_user_no_hunter_stats (chain : Chain) (e : Event)
    (submissionId bountyId : Nat) (hunter : String) (now : Nat) (db : DB)
    (hu : (db.users.find? (fun u => u.wallet_address == jsToLower hunter)).isSome = true)
    (hs : db.hunter_stats.find? (fun h => h.wallet_address == jsToLower hunter) = none) :
    (handleSubmissionCreated chain e submissionId bountyId hunter now db).hunter_stats
      = db.hunter_stats := by
  rcases ho : db.users.find? (fun u => u.wallet_address == jsToLower hunter) with _ | u
  · rw [ho] at hu
    simp at hu
  · rcases hbf : db.bounties.find? (fun b => b.bounty_id == bountyId) with _ | b
    · unfold handleSubmissionCreated submissionCreatedRest
      simp only [ho, hbf]
    · unfold handleSubmissionCreated submissionCreatedRest bumpTotalSubmissions
      simp only [ho, hbf]
      rw [(submissionUpsert_frame ..).2.1]
      exact map_update_of_find?_none _ _ _ hs

/-- C9 witness: the theorem applied to the database produced by BountyCreated
for company 0xAB (wallet 0xab present in `users`, `hunter_stats` empty),
receiving a SubmissionCreated by hunter 0xAB for the existing bounty 7. -/
theorem c9_existing_user_no_hunter_stats_witness :
    (handleSubmissionCreated chainW eSC9 3 7 "0xAB" 8 dbC9).hunter_stats
      = dbC9.hunter_stats :=
  c9_existing_user_no_hunter_stats chainW eSC9 3 7 "0xAB" 8 dbC9 (by decide) (by decide)

/-- C10: when a row for `(contract_address, network)` already exists in
`indexer_state`, `initializeState`'s upsert takes the ON CONFLICT branch and
modifies only `last_updated` on the key's rows; in particular the stored
`last_block` checkpoint value is unchanged, so the checkpoint survives a
restart intact. -/
theorem c10_init_preserves_last_block (c n : String) (startBlock now : Nat) (db : DB)
    (h : (db.indexer_state.find? (stateKey c n)).isSome = true) :
    (initializeState c n startBlock now db).indexer_state
      = db.indexer_state.map (fun r =>
          if stateKey c n r then { r with last_updated := now } else r)
    ∧ ((initializeState c n startBlock now db).indexer_state.find? (stateKey c n)).map
        (fun r => r.last_block)
      = (db.indexer_state.find? (stateKey c n)).map (fun r => r.last_block) := by
  rcases ho : db.indexer_state.find? (stateKey c n) with _ | r
  · rw [ho] at h
    simp at h
  · unfold initializeState
    rw [ho]
    constructor
    · rfl
    · rw [find?_map_update (stateKey c n) (fun x => { x with last_updated := now })
            db.indexer_state (fun a ha => ha),
          ho]
      rfl

/-- C10 witness: the theorem applied to a database whose checkpoint row for
`("0xc", "sepolia")` stands at block 100, re-initialized with a different
start block 55. -/
theorem c10_init_preserves_last_block_witness :
    (initializeState "0xc" "sepolia" 55 9 dbC4).indexer_state
      = dbC4.indexer_state.map (fun r =>
          if stateKey "0xc" "sepolia" r then { r with last_updated := 9 } else r)
    ∧ ((initializeState "0xc" "sepolia" 55 9 dbC4).indexer_state.find?
          (stateKey "0xc" "sepolia")).map (fun r => r.last_block)
      = (dbC4.indexer_state.find? (stateKey "0xc" "sepolia")).map (fun r => r.last_block) :=
  c10_init_preserves_last_block "0xc" "sepolia" 55 9 dbC4 (by decide)

end KR9
